import Mathlib

/-!
Verification of the extraction engine in
`tools/pokemon_json_gui/populate_database.py`.

The Python functions are shallowly embedded as Lean functions over
`List Char` (Python `str`), `Int` (Python unbounded integers), association
lists (Python `dict`, insertion ordered with last-write-wins updates), and
`Except String` for code paths that raise `ValueError`.  Definitions are
translated line by line from the source; structural recursion or an
explicit fuel argument replaces Python's loops so that every definition is
executable by the kernel.
-/

/-- Whitespace characters stripped by Python `str.strip()` and matched by
the regex class `\s` (ASCII range, which is all the inputs contain). -/
def isPySpace (c : Char) : Bool :=
  c == ' ' || c == '\t' || c == '\n' || c == '\r' || c == '\x0b' || c == '\x0c'

/-- Python `str.strip()`: remove leading and trailing whitespace. -/
def pystrip (l : List Char) : List Char :=
  ((l.dropWhile isPySpace).reverse.dropWhile isPySpace).reverse

/-- Python `' '.join(parts)`. -/
def joinSpaces (parts : List (List Char)) : List Char :=
  (parts.intersperse [' ']).flatten

/-- State threaded through `_count_brackets`' character loop:
the paren/brace depths plus the string-literal and escape flags. -/
structure ScanState where
  paren : Int
  brace : Int
  inString : Bool
  escape : Bool
deriving Repr, DecidableEq

/-- One iteration of the `for char in text` loop of `_count_brackets`
(populate_database.py lines 278-292). -/
def scanStep (s : ScanState) (c : Char) : ScanState :=
  let inStr := if c == '"' && !s.escape then !s.inString else s.inString
  if inStr then
    { s with inString := inStr, escape := c == '\\' && !s.escape }
  else
    let base : ScanState := { paren := s.paren, brace := s.brace, inString := inStr, escape := false }
    if c == '(' then { base with paren := base.paren + 1 }
    else if c == ')' then { base with paren := base.paren - 1 }
    else if c == '{' then { base with brace := base.brace + 1 }
    else if c == '}' then { base with brace := base.brace - 1 }
    else base

/-- `_count_brackets(text, paren, brace)` (populate_database.py lines 275-293):
the Structural Scanner.  Scans every character once and returns the ending
paren/brace depths. -/
def count_brackets (text : String) (paren brace : Int) : Int × Int :=
  let s := text.data.foldl scanStep ⟨paren, brace, false, false⟩
  (s.paren, s.brace)

/-- The scanner fold applied to a raw character list; used by callers that
hold `List Char` values. -/
def countBracketsL (l : List Char) (paren brace : Int) : Int × Int :=
  let s := l.foldl scanStep ⟨paren, brace, false, false⟩
  (s.paren, s.brace)

/-- The `for char in text` loop of `_split_top_level`
(populate_database.py lines 296-328), with the loop state made explicit:
depths, string flags, the current piece, and the emitted parts. -/
def splitTLAux : Int → Int → Bool → Bool → List Char → List (List Char) → List Char →
    List (List Char)
  | _, _, _, _, cur, acc, [] =>
      let tail := pystrip cur
      if tail.isEmpty then acc else acc ++ [tail]
  | p, b, ins, esc, cur, acc, c :: cs =>
      let ins1 := if c == '"' && !esc then !ins else ins
      if ins1 then
        splitTLAux p b ins1 (c == '\\' && !esc) (cur ++ [c]) acc cs
      else
        let p1 := if c == '(' then p + 1 else if c == ')' then p - 1 else p
        let b1 := if c == '{' then b + 1 else if c == '}' then b - 1 else b
        if c == ',' && p1 == 0 && b1 == 0 then
          let part := pystrip cur
          splitTLAux p1 b1 ins1 false [] (if part.isEmpty then acc else acc ++ [part]) cs
        else
          splitTLAux p1 b1 ins1 false (cur ++ [c]) acc cs

/-- `_split_top_level` on a raw character list. -/
def splitTLL (l : List Char) : List (List Char) :=
  splitTLAux 0 0 false false [] [] l

/-- `_split_top_level(text)` (populate_database.py lines 296-328): split a
comma-delimited list at nesting depth zero, honouring quoted strings. -/
def split_top_level (text : String) : List String :=
  (splitTLL text.data).map (fun l => String.mk l)

/-- Specification-side splitter: the list of raw (untrimmed) chunks of the
text delimited by exactly those commas that occur with `parenDepth == 0`,
`braceDepth == 0` and not inside a string literal, where the depths and the
string flag are tracked by the Structural Scanner (`scanStep`). -/
def topChunksAux : ScanState → List Char → List Char → List (List Char)
  | _, cur, [] => [cur]
  | st, cur, c :: cs =>
      if c == ',' && !st.inString && st.paren == 0 && st.brace == 0 then
        cur :: topChunksAux (scanStep st c) [] cs
      else
        topChunksAux (scanStep st c) (cur ++ [c]) cs

/-- Chunks of a string between its top-level commas, per the spec's words. -/
def topLevelChunks (text : String) : List (List Char) :=
  topChunksAux ⟨0, 0, false, false⟩ [] text.data

/-- The branch structure of `scanStep` laid out field by field; the
conditions are the same Boolean tests the source performs. -/
theorem scanStep_eq (p b : Int) (ins esc : Bool) (c : Char) :
    scanStep ⟨p, b, ins, esc⟩ c =
      if (if c == '"' && !esc then !ins else ins) then
        ⟨p, b, true, c == '\\' && !esc⟩
      else
        ⟨(if c == '(' then p + 1 else if c == ')' then p - 1 else p),
         (if c == '{' then b + 1 else if c == '}' then b - 1 else b),
         false, false⟩ := by
  unfold scanStep
  by_cases h : (if c == '"' && !esc then !ins else ins) = true
  · simp only [h, if_true]
  · simp only [Bool.not_eq_true] at h
    simp only [h, Bool.false_eq_true, if_false]
    rcases h1 : (c == '(') with _ | _ <;> rcases h2 : (c == ')') with _ | _ <;>
      rcases h3 : (c == '{') with _ | _ <;> rcases h4 : (c == '}') with _ | _ <;>
      simp_all [beq_iff_eq]

theorem splitTLAux_eq_chunks (cs : List Char) :
    ∀ (p b : Int) (ins esc : Bool) (cur : List Char) (acc : List (List Char)),
      splitTLAux p b ins esc cur acc cs =
        acc ++ ((topChunksAux ⟨p, b, ins, esc⟩ cur cs).map pystrip).filter
          (fun l => !l.isEmpty) := by
  induction cs with
  | nil =>
      intro p b ins esc cur acc
      by_cases h : (pystrip cur).isEmpty = true <;>
        simp [splitTLAux, topChunksAux, h]
  | cons c cs ih =>
      intro p b ins esc cur acc
      by_cases hq : (c == '"' && !esc) = true
      · -- the quote flag toggles: c must be the double quote
        have hc : c = '"' := by
          have h1 : (c == '"') = true := by
            rcases h : (c == '"') with _ | _
            · rw [h] at hq; simp at hq
            · rfl
          exact eq_of_beq h1
        subst hc
        have hesc : esc = false := by
          rcases h : esc with _ | _
          · rfl
          · rw [h] at hq; simp at hq
        subst hesc
        cases hins : ins <;>
          simp +decide [splitTLAux, topChunksAux, scanStep_eq, hins, ih]
      · -- no toggle: the string flag is unchanged
        have hq' : (c == '"' && !esc) = false := by simpa using hq
        cases hins : ins
        · -- outside a string
          by_cases hcm : c = ','
          · -- a comma: depths are unchanged by the step, split iff both zero
            subst hcm
            by_cases hp : p = 0 <;> by_cases hb : b = 0 <;>
              by_cases hcur : (pystrip cur).isEmpty = true <;>
                simp +decide [splitTLAux, topChunksAux, scanStep_eq, hq', hp, hb,
                  hcur, ih]
          · -- not a comma: both sides append the character and step the state
            have hcm' : (c == ',') = false := by simpa using hcm
            simp only [splitTLAux, topChunksAux, scanStep_eq, hq', hins, hcm',
              Bool.false_eq_true, if_false, Bool.false_and, Bool.not_false]
            rw [ih]
        · -- inside a string: the character is appended, never a split point
          simp only [splitTLAux, topChunksAux, scanStep_eq, hq', hins, Bool.not_true,
            Bool.and_false, Bool.false_and, Bool.false_eq_true, if_false, if_true]
          rw [ih]

/-- C8: For every input text and every starting (parenDepth, braceDepth), the
Structural Scanner `_count_brackets` is total: it scans every character once
via the fold of `scanStep` and returns the ending depths; `(` and `)` adjust
the paren depth by plus or minus one and `{` and `}` adjust the brace depth likewise only
outside string literals; structural characters inside a string literal leave
both depths unchanged; and a backslash inside a string sets the escape flag,
which makes the following character (in particular a quote) be consumed
without toggling the string state. -/
theorem C8_structural_scanner :
    (∀ (text : String) (paren brace : Int),
        count_brackets text paren brace =
          ((text.data.foldl scanStep ⟨paren, brace, false, false⟩).paren,
           (text.data.foldl scanStep ⟨paren, brace, false, false⟩).brace))
    ∧ (∀ (s : ScanState) (c : Char), s.inString = true →
        (scanStep s c).paren = s.paren ∧ (scanStep s c).brace = s.brace)
    ∧ (∀ (s : ScanState), s.inString = false →
        (scanStep s '(').paren = s.paren + 1 ∧ (scanStep s '(').brace = s.brace ∧
        (scanStep s ')').paren = s.paren - 1 ∧ (scanStep s ')').brace = s.brace ∧
        (scanStep s '{').brace = s.brace + 1 ∧ (scanStep s '{').paren = s.paren ∧
        (scanStep s '}').brace = s.brace - 1 ∧ (scanStep s '}').paren = s.paren)
    ∧ (∀ (s : ScanState), s.inString = true → s.escape = false →
        (scanStep s '\\').inString = true ∧ (scanStep s '\\').escape = true)
    ∧ (∀ (s : ScanState) (c : Char), s.inString = true → s.escape = true →
        (scanStep s c).inString = true ∧ (scanStep s c).escape = false) := by
  refine ⟨fun text paren brace => rfl, ?_, ?_, ?_, ?_⟩
  · intro s c hins
    obtain ⟨p, b, ins, esc⟩ := s
    cases hins
    rw [scanStep_eq]
    by_cases hq : (c == '"' && !esc) = true
    · have hc : c = '"' := by
        have h1 : (c == '"') = true := by
          rcases h : (c == '"') with _ | _
          · rw [h] at hq; simp at hq
          · rfl
        exact eq_of_beq h1
      subst hc
      cases h : esc <;> simp +decide [hq, h]
    · simp [hq]
  · intro s hins
    obtain ⟨p, b, ins, esc⟩ := s
    cases hins
    rw [scanStep_eq, scanStep_eq, scanStep_eq, scanStep_eq]
    simp +decide
  · intro s hins hesc
    obtain ⟨p, b, ins, esc⟩ := s
    cases hins; cases hesc
    rw [scanStep_eq]
    simp +decide
  · intro s c hins hesc
    obtain ⟨p, b, ins, esc⟩ := s
    cases hins; cases hesc
    rw [scanStep_eq]
    simp +decide

/-- Witness for C8 at a concrete state and character: an escaped character
inside a string is consumed without leaving the string. -/
theorem C8_structural_scanner_witness :
    (scanStep ⟨0, 0, true, true⟩ '"').inString = true ∧
    (scanStep ⟨0, 0, true, true⟩ '"').escape = false :=
  C8_structural_scanner.2.2.2.2 ⟨0, 0, true, true⟩ '"' rfl rfl

/-- C3: `split_top_level` splits exactly at the commas that occur with paren
depth 0 and brace depth 0 and outside string literals (the chunks delimited
by those commas under the Structural Scanner), returns the pieces in order
trimmed of surrounding whitespace with empty pieces dropped; in particular
on `a, {b, c}, d` and on `a, "x, y", b` (commas inside braces or quotes are
not split points). -/
theorem C3_split_top_level :
    (∀ (text : String),
        split_top_level text =
          (((topLevelChunks text).map pystrip).filter (fun l => !l.isEmpty)).map
            (fun l => String.mk l))
    ∧ split_top_level "a, \x7bb, c\x7d, d" = ["a", "\x7bb, c\x7d", "d"]
    ∧ split_top_level "a, \"x, y\", b" = ["a", "\"x, y\"", "b"] := by
  refine ⟨fun text => ?_, by decide, by decide⟩
  unfold split_top_level splitTLL topLevelChunks
  rw [splitTLAux_eq_chunks]
  simp

/-- Tokens produced by `_tokenize_expression`: numbers (identifiers in the
fixed symbol table are mapped to numbers at tokenization time), operator
symbols, and the end-of-input sentinel appended at line 495. -/
inductive Tok where
  | num : Int → Tok
  | op : String → Tok
  | eof : Tok
deriving Repr, DecidableEq

/-- Hex digit predicate of the regex class `[0-9A-Fa-f]`. -/
def isHexDigitC (c : Char) : Bool :=
  c.isDigit || (decide ('a' ≤ c) && decide (c ≤ 'f')) || (decide ('A' ≤ c) && decide (c ≤ 'F'))

/-- Value of one hex digit. -/
def hexDigitVal (c : Char) : Int :=
  if c.isDigit then (c.toNat : Int) - 48
  else if decide ('a' ≤ c) && decide (c ≤ 'f') then (c.toNat : Int) - 87
  else (c.toNat : Int) - 55

/-- Value of a `0x`-prefixed literal's digit part. -/
def hexToInt (ds : List Char) : Int :=
  ds.foldl (fun a c => a * 16 + hexDigitVal c) 0

/-- Value of a decimal digit string. -/
def decToInt (ds : List Char) : Int :=
  ds.foldl (fun a c => a * 10 + ((c.toNat : Int) - 48)) 0

/-- Python `int(value, 0)` on a string matched by `\d+`: a nonzero value
written with a leading zero raises `ValueError`; `0`, `00`, ... are zero. -/
def pyIntBase0 (ds : List Char) : Except String Int :=
  if ds.head? == some '0' && decide (1 < ds.length) && ds.any (fun c => !(c == '0')) then
    .error ("invalid literal for int with base 0: " ++ String.mk ds)
  else .ok (decToInt ds)

/-- The single-character operators of the regex class in TOKEN_REGEX. -/
def singleOpChars : List Char :=
  ['+', '-', '*', '/', '%', '&', '|', '^', '~', '!', '?', '(', ')', ':', '<', '>']

/-- `_tokenize_expression` (populate_database.py lines 473-496): repeatedly
match NUMBER (hex before decimal), then the two-character operators in the
order of TOKEN_REGEX, then the single-character operator class, then
identifiers (resolved through IDENT_VALUES, unknown ones fail), then
whitespace; anything else fails.  The fuel argument stands for the loop
over `index`; every token consumes at least one character. -/
def tokenizeAux : Nat → List Char → Except String (List Tok)
  | 0, _ => .error "tokenizer fuel exhausted"
  | _ + 1, [] => .ok [.eof]
  | fuel + 1, c :: cs =>
    if c == '0' && (match cs with | 'x' :: d :: _ => isHexDigitC d | _ => false) then
      let hexs := (cs.drop 1).takeWhile isHexDigitC
      let rest := (cs.drop 1).drop hexs.length
      (tokenizeAux fuel rest).map (fun ts => .num (hexToInt hexs) :: ts)
    else if c.isDigit then
      let ds := (c :: cs).takeWhile Char.isDigit
      let rest := (c :: cs).drop ds.length
      match pyIntBase0 ds with
      | .error e => .error e
      | .ok v => (tokenizeAux fuel rest).map (fun ts => .num v :: ts)
    else
      match c, cs with
      | '=', '=' :: rest => (tokenizeAux fuel rest).map (fun ts => .op "==" :: ts)
      | '!', '=' :: rest => (tokenizeAux fuel rest).map (fun ts => .op "!=" :: ts)
      | '<', '=' :: rest => (tokenizeAux fuel rest).map (fun ts => .op "<=" :: ts)
      | '>', '=' :: rest => (tokenizeAux fuel rest).map (fun ts => .op ">=" :: ts)
      | '<', '<' :: rest => (tokenizeAux fuel rest).map (fun ts => .op "<<" :: ts)
      | '>', '>' :: rest => (tokenizeAux fuel rest).map (fun ts => .op ">>" :: ts)
      | '&', '&' :: rest => (tokenizeAux fuel rest).map (fun ts => .op "&&" :: ts)
      | '|', '|' :: rest => (tokenizeAux fuel rest).map (fun ts => .op "||" :: ts)
      | _, _ =>
        if singleOpChars.contains c then
          (tokenizeAux fuel cs).map (fun ts => .op (String.mk [c]) :: ts)
        else if c.isAlpha || c == '_' then
          let name := (c :: cs).takeWhile (fun ch => ch.isAlphanum || ch == '_')
          let rest := (c :: cs).drop name.length
          if name == "TRUE".data then
            (tokenizeAux fuel rest).map (fun ts => .num 1 :: ts)
          else if name == "FALSE".data then
            (tokenizeAux fuel rest).map (fun ts => .num 0 :: ts)
          else .error ("Unknown identifier in expression: " ++ String.mk name)
        else if isPySpace c then
          tokenizeAux fuel cs
        else
          .error ("Unsupported token in expression: " ++ String.mk (c :: cs))

/-- `_TokenStream.peek`: the next token (the EOF sentinel ends the list, so
an empty list is only reachable past it and keeps yielding EOF). -/
def peekT : List Tok → Tok
  | [] => .eof
  | t :: _ => t

/-- `_TokenStream.next`: advance past one token. -/
def tailT : List Tok → List Tok
  | [] => []
  | _ :: ts => ts

/-- Python `token[1] == value`: only operator tokens compare equal to an
operator symbol (a number's payload is an integer, EOF's is `""`). -/
def tokIsVal (t : Tok) (v : String) : Bool :=
  match t with
  | .op s => s == v
  | _ => false

/-- `_TokenStream.expect(value)` (populate_database.py lines 516-519). -/
def expectT (v : String) (ts : List Tok) : Except String (List Tok) :=
  if tokIsVal (peekT ts) v then .ok (tailT ts)
  else .error ("Expected token " ++ v)

/-- Python `&` on unbounded integers (two's-complement of infinite width;
`.negSucc n` has bit pattern NOT n). -/
def pyBitAnd : Int → Int → Int
  | .ofNat m, .ofNat n => .ofNat (m.land n)
  | .ofNat m, .negSucc n => .ofNat (m - m.land n)
  | .negSucc m, .ofNat n => .ofNat (n - n.land m)
  | .negSucc m, .negSucc n => .negSucc (m.lor n)

/-- Python `|` on unbounded integers. -/
def pyBitOr : Int → Int → Int
  | .ofNat m, .ofNat n => .ofNat (m.lor n)
  | .ofNat m, .negSucc n => .negSucc (n - n.land m)
  | .negSucc m, .ofNat n => .negSucc (m - m.land n)
  | .negSucc m, .negSucc n => .negSucc (m.land n)

/-- Python `^` on unbounded integers. -/
def pyBitXor : Int → Int → Int
  | .ofNat m, .ofNat n => .ofNat (m.xor n)
  | .ofNat m, .negSucc n => .negSucc (m.xor n)
  | .negSucc m, .ofNat n => .negSucc (m.xor n)
  | .negSucc m, .negSucc n => .ofNat (m.xor n)

/-- Python `value << right`: multiplication by a power of two; a negative
shift count raises `ValueError`. -/
def pyShiftL (v r : Int) : Except String Int :=
  if r < 0 then .error "negative shift count" else .ok (v * (2 ^ r.toNat))

/-- Python `value >> right`: floor division by a power of two; a negative
shift count raises `ValueError`. -/
def pyShiftR (v r : Int) : Except String Int :=
  if r < 0 then .error "negative shift count" else .ok (Int.fdiv v (2 ^ r.toNat))

/-- The recursive-descent parser `_parse_expression` .. `_parse_primary`
(populate_database.py lines 522-677) as one function indexed by the grammar
level.  Even levels 2..20 are the entry points of the binary-operator
levels (logical-or, logical-and, `|`, `^`, `&`, equality, relational,
shift, additive, multiplicative); the following odd level is that level's
`while` loop carrying the accumulated left value; 0 is `_parse_expression`,
1 `_parse_ternary`, 22 `_parse_unary` and everything else `_parse_primary`.
The fuel argument bounds the call depth, which the source bounds by the
token count; `evaluate_numeric` passes ample fuel.
Python operator semantics on the way: `int(value / right)` truncates the
exact quotient toward zero (`Int.tdiv`; the source computes it via float
division, exact at the magnitudes these headers contain), `%` is Python's
floor modulo (`Int.fmod`, sign of the divisor), and `~x = -x - 1`. -/
def parseL : Nat → Nat → Int → List Tok → Except String (Int × List Tok)
  | 0, _, _, _ => .error "expression nesting too deep"
  | fuel + 1, 0, _, ts => parseL fuel 1 0 ts
  | fuel + 1, 1, _, ts => do
      let (v, ts1) ← parseL fuel 2 0 ts
      if tokIsVal (peekT ts1) "?" then do
        let (tv, ts2) ← parseL fuel 1 0 (tailT ts1)
        let ts3 ← expectT ":" ts2
        let (fv, ts4) ← parseL fuel 1 0 ts3
        .ok ((if v != 0 then tv else fv), ts4)
      else .ok (v, ts1)
  | fuel + 1, 2, _, ts => do
      let (v, ts1) ← parseL fuel 4 0 ts
      parseL fuel 3 v ts1
  | fuel + 1, 3, acc, ts =>
      if tokIsVal (peekT ts) "||" then do
        let (r, ts1) ← parseL fuel 4 0 (tailT ts)
        parseL fuel 3 (if acc != 0 || r != 0 then 1 else 0) ts1
      else .ok (acc, ts)
  | fuel + 1, 4, _, ts => do
      let (v, ts1) ← parseL fuel 6 0 ts
      parseL fuel 5 v ts1
  | fuel + 1, 5, acc, ts =>
      if tokIsVal (peekT ts) "&&" then do
        let (r, ts1) ← parseL fuel 6 0 (tailT ts)
        parseL fuel 5 (if acc != 0 && r != 0 then 1 else 0) ts1
      else .ok (acc, ts)
  | fuel + 1, 6, _, ts => do
      let (v, ts1) ← parseL fuel 8 0 ts
      parseL fuel 7 v ts1
  | fuel + 1, 7, acc, ts =>
      if tokIsVal (peekT ts) "|" then do
        let (r, ts1) ← parseL fuel 8 0 (tailT ts)
        parseL fuel 7 (pyBitOr acc r) ts1
      else .ok (acc, ts)
  | fuel + 1, 8, _, ts => do
      let (v, ts1) ← parseL fuel 10 0 ts
      parseL fuel 9 v ts1
  | fuel + 1, 9, acc, ts =>
      if tokIsVal (peekT ts) "^" then do
        let (r, ts1) ← parseL fuel 10 0 (tailT ts)
        parseL fuel 9 (pyBitXor acc r) ts1
      else .ok (acc, ts)
  | fuel + 1, 10, _, ts => do
      let (v, ts1) ← parseL fuel 12 0 ts
      parseL fuel 11 v ts1
  | fuel + 1, 11, acc, ts =>
      if tokIsVal (peekT ts) "&" then do
        let (r, ts1) ← parseL fuel 12 0 (tailT ts)
        parseL fuel 11 (pyBitAnd acc r) ts1
      else .ok (acc, ts)
  | fuel + 1, 12, _, ts => do
      let (v, ts1) ← parseL fuel 14 0 ts
      parseL fuel 13 v ts1
  | fuel + 1, 13, acc, ts =>
      if tokIsVal (peekT ts) "==" then do
        let (r, ts1) ← parseL fuel 14 0 (tailT ts)
        parseL fuel 13 (if acc == r then 1 else 0) ts1
      else if tokIsVal (peekT ts) "!=" then do
        let (r, ts1) ← parseL fuel 14 0 (tailT ts)
        parseL fuel 13 (if acc != r then 1 else 0) ts1
      else .ok (acc, ts)
  | fuel + 1, 14, _, ts => do
      let (v, ts1) ← parseL fuel 16 0 ts
      parseL fuel 15 v ts1
  | fuel + 1, 15, acc, ts =>
      if tokIsVal (peekT ts) "<" then do
        let (r, ts1) ← parseL fuel 16 0 (tailT ts)
        parseL fuel 15 (if acc < r then 1 else 0) ts1
      else if tokIsVal (peekT ts) ">" then do
        let (r, ts1) ← parseL fuel 16 0 (tailT ts)
        parseL fuel 15 (if r < acc then 1 else 0) ts1
      else if tokIsVal (peekT ts) "<=" then do
        let (r, ts1) ← parseL fuel 16 0 (tailT ts)
        parseL fuel 15 (if acc ≤ r then 1 else 0) ts1
      else if tokIsVal (peekT ts) ">=" then do
        let (r, ts1) ← parseL fuel 16 0 (tailT ts)
        parseL fuel 15 (if r ≤ acc then 1 else 0) ts1
      else .ok (acc, ts)
  | fuel + 1, 16, _, ts => do
      let (v, ts1) ← parseL fuel 18 0 ts
      parseL fuel 17 v ts1
  | fuel + 1, 17, acc, ts =>
      if tokIsVal (peekT ts) "<<" then do
        let (r, ts1) ← parseL fuel 18 0 (tailT ts)
        let v ← pyShiftL acc r
        parseL fuel 17 v ts1
      else if tokIsVal (peekT ts) ">>" then do
        let (r, ts1) ← parseL fuel 18 0 (tailT ts)
        let v ← pyShiftR acc r
        parseL fuel 17 v ts1
      else .ok (acc, ts)
  | fuel + 1, 18, _, ts => do
      let (v, ts1) ← parseL fuel 20 0 ts
      parseL fuel 19 v ts1
  | fuel + 1, 19, acc, ts =>
      if tokIsVal (peekT ts) "+" then do
        let (r, ts1) ← parseL fuel 20 0 (tailT ts)
        parseL fuel 19 (acc + r) ts1
      else if tokIsVal (peekT ts) "-" then do
        let (r, ts1) ← parseL fuel 20 0 (tailT ts)
        parseL fuel 19 (acc - r) ts1
      else .ok (acc, ts)
  | fuel + 1, 20, _, ts => do
      let (v, ts1) ← parseL fuel 22 0 ts
      parseL fuel 21 v ts1
  | fuel + 1, 21, acc, ts =>
      if tokIsVal (peekT ts) "*" then do
        let (r, ts1) ← parseL fuel 22 0 (tailT ts)
        parseL fuel 21 (acc * r) ts1
      else if tokIsVal (peekT ts) "/" then do
        let (r, ts1) ← parseL fuel 22 0 (tailT ts)
        if r == 0 then .error "Division by zero in expression"
        else parseL fuel 21 (Int.tdiv acc r) ts1
      else if tokIsVal (peekT ts) "%" then do
        let (r, ts1) ← parseL fuel 22 0 (tailT ts)
        if r == 0 then .error "Modulo by zero in expression"
        else parseL fuel 21 (Int.fmod acc r) ts1
      else .ok (acc, ts)
  | fuel + 1, 22, _, ts =>
      if tokIsVal (peekT ts) "+" then do
        let (o, ts1) ← parseL fuel 22 0 (tailT ts)
        .ok (o, ts1)
      else if tokIsVal (peekT ts) "-" then do
        let (o, ts1) ← parseL fuel 22 0 (tailT ts)
        .ok (-o, ts1)
      else if tokIsVal (peekT ts) "!" then do
        let (o, ts1) ← parseL fuel 22 0 (tailT ts)
        .ok ((if o != 0 then 0 else 1 : Int), ts1)
      else if tokIsVal (peekT ts) "~" then do
        let (o, ts1) ← parseL fuel 22 0 (tailT ts)
        .ok (-o - 1, ts1)
      else parseL fuel 23 0 ts
  | fuel + 1, _, _, ts =>
      match peekT ts with
      | .op s =>
          if s == "(" then do
            let (v, ts1) ← parseL fuel 0 0 (tailT ts)
            let ts2 ← expectT ")" ts1
            .ok (v, ts2)
          else .error ("Unexpected token in expression: " ++ s)
      | .num n => .ok (n, tailT ts)
      | .eof => .error "Unexpected token in expression: EOF"

/-- `_evaluate_numeric(expr)` (populate_database.py lines 680-687): strip
the text, return 0 when nothing is left, otherwise tokenize and run the
recursive-descent parser (trailing tokens after a complete expression are
ignored, as in the source). -/
def evaluate_numeric (expr : String) : Except String Int :=
  let text := pystrip expr.data
  if text.isEmpty then .ok 0
  else do
    let toks ← tokenizeAux (text.length + 1) text
    let (v, _) ← parseL (40 * (toks.length + 1)) 0 0 toks
    .ok v

/-- C1 counterexample: the claim's universal — every valid expression over
the supported operator set evaluates to its standard C value — is false at
the concrete input `-7 % 3`: C's truncated modulo gives -1, but
`evaluate_numeric` returns 2 (Python's floor modulo at line 648), so it
does not return the C value there. -/
theorem C1_precedence_counterexample :
    evaluate_numeric "-7 % 3" = .ok 2 ∧
    ¬(evaluate_numeric "-7 % 3" = .ok (-1)) := by
  refine ⟨rfl, fun h => ?_⟩
  rw [show evaluate_numeric "-7 % 3" = Except.ok 2 from rfl] at h
  exact absurd (Except.ok.inj h) (by decide)

/-- C1 (amended): `evaluate_numeric` parses with standard C operator
precedence and evaluation order and returns the C value on the claim's
example expressions — multiplication binds tighter than addition,
parentheses override, the ternary selects on a nonzero/zero condition,
shift and bitwise-and give their C values — but not on every expression
over the supported operator set: modulo (and hence expressions depending
on it) follows Python floor semantics on negative operands, deviating
from C as the counterexample shows. -/
theorem C1_expression_precedence :
    evaluate_numeric "2 + 3 * 4" = .ok 14 ∧
    evaluate_numeric "(2 + 3) * 4" = .ok 20 ∧
    evaluate_numeric "1 ? 10 : 20" = .ok 10 ∧
    evaluate_numeric "0 ? 10 : 20" = .ok 20 ∧
    evaluate_numeric "1 << 4" = .ok 16 ∧
    evaluate_numeric "5 & 3" = .ok 1 :=
  ⟨rfl, rfl, rfl, rfl, rfl, rfl⟩

/-- C2: division by a nonzero right operand does truncate toward zero
(`10 / 3 = 3`), but modulo is Python's floor modulo, not C's truncated
modulo: `evaluate_numeric "-7 % 3"` returns 2, where the claim (and C)
require -1.  This also breaks the C identity `(a/b)*b + a%b = a` that the
code's own truncating division implies, so the modulo is a slip in the
code rather than an intended deviation. -/
theorem C2_division_modulo :
    evaluate_numeric "10 / 3" = .ok 3 ∧
    evaluate_numeric "-7 % 3" = .ok 2 :=
  ⟨rfl, rfl⟩

/-- Auxiliary: dropping while a predicate holds of every element leaves
nothing. -/
theorem dropWhile_eq_nil_of_all {p : Char → Bool} :
    ∀ {l : List Char}, (∀ c ∈ l, p c = true) → l.dropWhile p = [] := by
  intro l h
  induction l with
  | nil => rfl
  | cons c cs ih =>
      rw [List.dropWhile_cons]
      simp only [h c (List.mem_cons_self c cs), if_true]
      exact ih (fun x hx => h x (List.mem_cons_of_mem c hx))

/-- C10: on an input that is empty or consists only of whitespace,
`evaluate_numeric` returns the integer 0 instead of failing: the source
strips the text and returns 0 before tokenizing when nothing remains. -/
theorem C10_empty_expression (s : String) :
    (∀ c ∈ s.data, isPySpace c = true) → evaluate_numeric s = .ok 0 := by
  intro h
  have h1 : pystrip s.data = [] := by
    unfold pystrip
    rw [dropWhile_eq_nil_of_all h]
    rfl
  unfold evaluate_numeric
  rw [h1]
  rfl

/-- Witness for C10 at the concrete whitespace-only input of three
spaces. -/
theorem C10_empty_expression_witness : evaluate_numeric "   " = .ok 0 :=
  C10_empty_expression "   " (by decide)

/-- Python dict assignment `d[k] = v` on an insertion-ordered dict modelled
as an association list: an existing key keeps its position and gets the new
value (last write wins), a new key is appended. -/
def dictSet {α : Type} (d : List (String × α)) (k : String) (v : α) :
    List (String × α) :=
  if d.any (fun p => p.1 == k) then
    d.map (fun p => if p.1 == k then (k, v) else p)
  else d ++ [(k, v)]

/-- Python `line.split('=', 1)`: the part before the first `=` and the part
after it. -/
def splitFirstEq : List Char → List Char × List Char
  | [] => ([], [])
  | c :: cs =>
      if c == '=' then ([], cs)
      else
        let r := splitFirstEq cs
        (c :: r.1, r.2)

/-- Python non-overlapping `raw_line.replace(', .', ',\n        .')`
(populate_database.py line 339; the replacement carries eight spaces).
The source guards the call with `if ', .' in raw_line`, which is a no-op
when the pattern is absent, so the guard is collapsed here. -/
def pyReplaceCommaDot : List Char → List Char
  | ',' :: ' ' :: '.' :: rest =>
      ',' :: '\n' :: ' ' :: ' ' :: ' ' :: ' ' :: ' ' :: ' ' :: ' ' :: ' ' :: '.' ::
        pyReplaceCommaDot rest
  | c :: rest => c :: pyReplaceCommaDot rest
  | [] => []

/-- Split on the newline character, keeping empty segments; always returns
at least one segment. -/
def splitOnNL : List Char → List (List Char)
  | [] => [[]]
  | c :: cs =>
      if c == '\n' then [] :: splitOnNL cs
      else
        match splitOnNL cs with
        | [] => [[c]]
        | h :: t => (c :: h) :: t

/-- Python `str.splitlines()` for texts whose only line break is `\n`:
empty input gives no lines, and a trailing newline produces no trailing
empty line. -/
def splitNewlines (l : List Char) : List (List Char) :=
  if l.isEmpty then []
  else
    let parts := splitOnNL l
    if parts.getLast? == some [] then parts.dropLast else parts

/-- Loop state of `_parse_block_assignments` (populate_database.py lines
332-335): the committed assignments, the open field if any, the
accumulated value fragments, and the running depths. -/
structure BlockState where
  assignments : List (String × String)
  currentField : Option String
  buffer : List (List Char)
  paren : Int
  brace : Int
deriving Repr, DecidableEq

/-- One iteration of the `for raw_line in expanded_lines` loop of
`_parse_block_assignments` (populate_database.py lines 341-372). -/
def blockStep (s : BlockState) (raw : List Char) : BlockState :=
  let stripped := pystrip raw
  if stripped.isEmpty then s
  else
    match s.currentField with
    | none =>
        if !(stripped.head? == some '.') || !(stripped.contains '=') then s
        else
          let fv := splitFirstEq (stripped.drop 1)
          let field := String.mk (pystrip fv.1)
          let value0 := pystrip fv.2
          let hasComma := value0.getLast? == some ','
          let value := if hasComma then pystrip value0.dropLast else value0
          let st := countBracketsL value 0 0
          if st.1 == 0 && st.2 == 0 && hasComma then
            { assignments := dictSet s.assignments field (String.mk value),
              currentField := none, buffer := [], paren := 0, brace := 0 }
          else
            { assignments := s.assignments, currentField := some field,
              buffer := [value], paren := st.1, brace := st.2 }
    | some f =>
        let value0 := stripped
        let hasComma := value0.getLast? == some ','
        let value := if hasComma then pystrip value0.dropLast else value0
        let buffer := s.buffer ++ [value]
        let st := countBracketsL value s.paren s.brace
        if st.1 == 0 && st.2 == 0 && hasComma then
          { assignments := dictSet s.assignments f
              (String.mk (pystrip (joinSpaces buffer))),
            currentField := none, buffer := [], paren := 0, brace := 0 }
        else
          { assignments := s.assignments, currentField := some f,
            buffer := buffer, paren := st.1, brace := st.2 }

/-- The inline `, .field` continuations normalized onto their own lines
(populate_database.py lines 336-340). -/
def expandBlockLines (lines : List (List Char)) : List (List Char) :=
  (lines.map (fun raw => splitNewlines (pyReplaceCommaDot raw))).flatten

/-- The loop state after consuming every expanded line. -/
def blockFoldStateL (lines : List (List Char)) : BlockState :=
  (expandBlockLines lines).foldl blockStep
    { assignments := [], currentField := none, buffer := [], paren := 0, brace := 0 }

/-- `_parse_block_assignments(lines)` on raw character lines, including the
final best-effort commit of a still-open field (populate_database.py lines
373-375). -/
def parseBlockAssignCore (lines : List (List Char)) : List (String × String) :=
  let s := blockFoldStateL lines
  match s.currentField with
  | some f =>
      if s.buffer.isEmpty then s.assignments
      else dictSet s.assignments f (String.mk (pystrip (joinSpaces s.buffer)))
  | none => s.assignments

/-- `_parse_block_assignments(lines)` (populate_database.py lines 331-375):
the Block-Assignment Extractor, producing a FieldMap. -/
def parse_block_assignments (lines : List String) : List (String × String) :=
  parseBlockAssignCore (lines.map String.data)

/-- The extractor's loop state on `String` lines, for stating end-of-input
behaviour. -/
def blockFoldState (lines : List String) : BlockState :=
  blockFoldStateL (lines.map String.data)

/-- C4: `_parse_block_assignments` commits a field exactly when the running
depths return to zero and the last consumed line ends with a trailing
comma; at commit the fragments are joined with single spaces and the
trailing comma is stripped.  On the claim's interior text the FieldMap maps
`x` to `FOO(1, 2)` and `y` to `{ 1, 2, 3 }`; a multi-line value stays open
until its closing line; and a continuation line without a trailing comma
never commits (the field stays open and the committed assignments are
unchanged). -/
theorem C4_extract_field_map :
    parse_block_assignments [".x = FOO(1, 2),", ".y = \x7b 1, 2, 3 \x7d,"] =
      [("x", "FOO(1, 2)"), ("y", "\x7b 1, 2, 3 \x7d")]
    ∧ parse_block_assignments [".y = \x7b", "1, 2,", "3,", "\x7d,", ".z = 4,"] =
        [("y", "\x7b 1, 2 3 \x7d"), ("z", "4")]
    ∧ (∀ (s : BlockState) (line : String) (f : String),
        s.currentField = some f →
        ((pystrip line.data).getLast? == some ',') = false →
        (blockStep s line.data).assignments = s.assignments ∧
        (blockStep s line.data).currentField = some f) := by
  refine ⟨by decide, by decide, ?_⟩
  intro s line f hf hcomma
  unfold blockStep
  by_cases hemp : (pystrip line.data).isEmpty = true
  · simp [hemp, hf]
  · simp only [hemp, Bool.false_eq_true, if_false, hf]
    simp [hcomma]

/-- Witness for C4's no-commit conjunct at a concrete open state and a
continuation line with no trailing comma. -/
theorem C4_extract_field_map_witness :
    (blockStep ⟨[], some "x", [['1']], 0, 1⟩ "2 + 3".data).assignments = [] ∧
    (blockStep ⟨[], some "x", [['1']], 0, 1⟩ "2 + 3".data).currentField = some "x" :=
  C4_extract_field_map.2.2 ⟨[], some "x", [['1']], 0, 1⟩ "2 + 3" "x" rfl (by decide)

/-- C9: if the input ends while a field is still open and at least one
fragment has been accumulated, `_parse_block_assignments` commits the
accumulated partial value (joined with single spaces and stripped) under
that field instead of discarding it. -/
theorem C9_partial_commit :
    ∀ (lines : List String) (f : String),
      (blockFoldState lines).currentField = some f →
      (blockFoldState lines).buffer ≠ [] →
      parse_block_assignments lines =
        dictSet (blockFoldState lines).assignments f
          (String.mk (pystrip (joinSpaces (blockFoldState lines).buffer))) := by
  intro lines f hf hb
  unfold parse_block_assignments parseBlockAssignCore blockFoldState
  unfold blockFoldState at hf hb
  simp [hf, hb]

/-- Witness for C9: a single line opening a macro call that never closes is
committed as a partial value. -/
theorem C9_partial_commit_witness :
    parse_block_assignments [".x = FOO(1,"] = [("x", "FOO(1")] :=
  (C9_partial_commit [".x = FOO(1,"] "x" (by decide) (by decide)).trans (by decide)

/-- Character class `[A-Z0-9_]` of the species key regex. -/
def isSpeciesChar (c : Char) : Bool :=
  c.isUpper || c.isDigit || c == '_'

/-- The regex match `re.match(r"\[(SPECIES_[A-Z0-9_]+)\]\s*=", stripped)`
of `_parse_species_info_text` (populate_database.py line 384), returning
the captured key: a literal `[SPECIES_`, at least one class character,
`]`, optional whitespace, `=`, anchored at the start of the stripped
line. -/
def speciesKeyOf (line : List Char) : Option String :=
  let stripped := pystrip line
  match stripped with
  | '[' :: rest =>
      if rest.take 8 == "SPECIES_".data then
        let after := rest.drop 8
        let name := after.takeWhile isSpeciesChar
        if name.isEmpty then none
        else
          match after.drop name.length with
          | ']' :: rest2 =>
              if (rest2.dropWhile isPySpace).head? == some '=' then
                some (String.mk ("SPECIES_".data ++ name))
              else none
          | _ => none
      else none
  | _ => none

/-- The block-collecting inner `while` loop of `_parse_species_info_text`
(populate_database.py lines 395-405): consume lines while tracking the
brace balance until it returns to zero or the input ends, returning the
collected block and the remaining lines. -/
def collectBlock : Int → List (List Char) → List (List Char) →
    List (List Char) × List (List Char)
  | _, acc, [] => (acc, [])
  | depth, acc, line :: rest =>
      let d1 := if line.contains '{' then depth + (line.count '{' : Int) else depth
      let d2 := if line.contains '}' then d1 - (line.count '}' : Int) else d1
      let acc2 := acc ++ [line]
      if d2 ≤ 0 then (acc2, rest) else collectBlock d2 acc2 rest

/-- The outer `while index < len(lines)` loop of
`_parse_species_info_text` (populate_database.py lines 382-410).  The fuel
argument stands for the index bound; every iteration consumes at least one
line, so the initial line count suffices.  After a key matches, the scan
advances past the key line, skips lines without `{` (breaking off the
whole scan if none remains), collects the balanced block, skips it when it
has fewer than two lines, and otherwise strips the outer brace lines and
hands the interior to the Block-Assignment Extractor. -/
def scanSpeciesAux : Nat → List (List Char) →
    List (String × List (String × String)) → List (String × List (String × String))
  | 0, _, acc => acc
  | _ + 1, [], acc => acc
  | fuel + 1, line :: rest, acc =>
      match speciesKeyOf line with
      | none => scanSpeciesAux fuel rest acc
      | some species =>
          let rest2 := rest.dropWhile (fun l => !l.contains '{')
          match rest2 with
          | [] => acc
          | _ :: _ =>
              let cb := collectBlock 0 [] rest2
              if cb.1.length < 2 then scanSpeciesAux fuel cb.2 acc
              else
                scanSpeciesAux fuel cb.2
                  (dictSet acc species (parseBlockAssignCore ((cb.1.drop 1).dropLast)))

/-- `_parse_species_info_text(text)` (populate_database.py lines 378-411):
the Indexed-Entry Scanner, producing one FieldMap per `SPECIES_` key. -/
def parse_species_info_text (text : String) :
    List (String × List (String × String)) :=
  let lines := splitNewlines text.data
  scanSpeciesAux (lines.length + 1) lines []

/-- C6 counterexample: on the claim's text — `[KEY_A] = { .x = 1, };`
followed immediately by `[KEY_B] = { .x = 2, };` — the scanner returns the
empty map, not a map containing both keys: the key regex only accepts
`SPECIES_`-prefixed keys, so neither `KEY_A` nor `KEY_B` matches. -/
theorem C6_scan_counterexample :
    parse_species_info_text
        "[KEY_A] = \x7b .x = 1, \x7d;\n[KEY_B] = \x7b .x = 2, \x7d;" = [] := by
  decide

/-- C6 (amended): the scanner only recognizes keys matching
`SPECIES_[A-Z0-9_]+` and only collects a block whose opening brace is on a
line after the key line.  With both entries in that shape it returns a map
with both keys; and a malformed entry — one whose collected block has
fewer than two lines, e.g. brace and body on a single line — is skipped
while scanning continues, so the well-formed entry is still retained and
one malformed entry never aborts the whole scan. -/
theorem C6_scan_indexed_entries :
    parse_species_info_text
        "[SPECIES_A] =\n\x7b\n    .x = 1,\n\x7d;\n[SPECIES_B] =\n\x7b\n    .x = 2,\n\x7d;" =
      [("SPECIES_A", [("x", "1")]), ("SPECIES_B", [("x", "2")])]
    ∧ parse_species_info_text
        "[SPECIES_A] =\n\x7b .x = 1, \x7d;\n[SPECIES_B] =\n\x7b\n    .x = 2,\n\x7d;" =
      [("SPECIES_B", [("x", "2")])] := by
  exact ⟨by decide, by decide⟩

/-- `_parse_macro_arguments(value)` (populate_database.py lines 443-452):
locate the first `(` and the last `)`; when either is missing or they are
out of order, the whole stripped text is returned as a single-element list
(no error is raised); otherwise the interior is split at top level. -/
def parse_macro_arguments (value : String) : List String :=
  if value.data.isEmpty then []
  else
    let text := pystrip value.data
    match text.findIdx? (fun c => c == '('), text.reverse.findIdx? (fun c => c == ')') with
    | some s, some ri =>
        let e := text.length - 1 - ri
        if e ≤ s then [String.mk text]
        else
          (((splitTLL ((text.take e).drop (s + 1))).map pystrip).filter
            (fun l => !l.isEmpty)).map (fun l => String.mk l)
    | _, _ => [String.mk text]

/-- `_parse_braced_list(value)` (populate_database.py lines 455-461): strip
one layer of wrapping braces if both are present, then split at top level;
no error is raised for missing or unbalanced braces. -/
def parse_braced_list (value : String) : List String :=
  if value.data.isEmpty then []
  else
    let text0 := pystrip value.data
    let text :=
      if text0.head? == some '{' && text0.getLast? == some '}' then
        (text0.drop 1).dropLast
      else text0
    (((splitTLL text).map pystrip).filter (fun l => !l.isEmpty)).map
      (fun l => String.mk l)

/-- C5 counterexample: on the malformed raw value `FOO(1, 2` (unbalanced
parentheses), `_parse_macro_arguments` returns a normal result — the whole
text as a single-element list — rather than failing; the decoder has no
error path at all, refuting the claim that malformed input raises a
ParseError-kind error rather than returning a result. -/
theorem C5_decoder_counterexample :
    parse_macro_arguments "FOO(1, 2" = ["FOO(1, 2"] := by
  decide

/-- C5 (amended): the value decoders never raise on malformed input; they
return best-effort results: `_parse_macro_arguments` returns the whole
stripped text as a one-element list when a parenthesis is missing or when
the last `)` precedes the first `(`, and `_parse_braced_list` splits the
stripped text as-is when the wrapping braces are absent or unbalanced. -/
theorem C5_decoder_fallbacks :
    parse_macro_arguments "BAR)" = ["BAR)"]
    ∧ parse_macro_arguments "FOO)1, 2(" = ["FOO)1, 2("]
    ∧ parse_braced_list "1, 2\x7d" = ["1", "2\x7d"] := by
  exact ⟨by decide, by decide, by decide⟩

/-- The inner index loop of the CONDITIONS handler in `_parse_evolutions`
(populate_database.py lines 729-741): collect the character runs strictly
between each top-level `{` and its matching `}` (nested braces included in
the run), dropping an unterminated final group. -/
def braceGroupsAux : Int → Option (List Char) → List Char → List (List Char)
  | _, _, [] => []
  | depth, acc, c :: cs =>
      if c == '{' then
        if depth == 0 then braceGroupsAux (depth + 1) (some []) cs
        else braceGroupsAux (depth + 1) (acc.map (fun l => l ++ [c])) cs
      else if c == '}' then
        if depth - 1 == 0 then
          match acc with
          | some g => g :: braceGroupsAux (depth - 1) none cs
          | none => braceGroupsAux (depth - 1) none cs
        else braceGroupsAux (depth - 1) (acc.map (fun l => l ++ [c])) cs
      else braceGroupsAux depth (acc.map (fun l => l ++ [c])) cs

/-- The per-entry processing of `_parse_evolutions` (populate_database.py
lines 714-748): strip the entry, drop its wrapping braces, split it at top
level; fewer than three parts skips the entry; the first three parts are
method, parameter and target; each remaining part starting with
`CONDITIONS` is unwrapped — its parenthesized interior's brace groups are
each split at top level and rejoined with single spaces (an interior with
no parts contributes nothing, and a CONDITIONS part without parentheses is
skipped) — while any other trailing part is appended verbatim. -/
def processEvoEntry (cur : List Char) :
    List (String × String × String × List String) :=
  let entry0 := pystrip cur
  let entry1 :=
    if entry0.head? == some '{' && entry0.getLast? == some '}' then
      (entry0.drop 1).dropLast
    else entry0
  let parts := ((splitTLL entry1).map pystrip).filter (fun l => !l.isEmpty)
  match parts with
  | m :: p :: t :: rest =>
      let conds := rest.foldl (fun conds extra =>
        if extra.take 10 == "CONDITIONS".data then
          match extra.findIdx? (fun c => c == '('),
              extra.reverse.findIdx? (fun c => c == ')') with
          | some s, some ri =>
              let e := extra.length - 1 - ri
              let block := (extra.take e).drop (s + 1)
              let groups := braceGroupsAux 0 none block
              conds ++ groups.filterMap (fun g =>
                let cps := ((splitTLL g).map pystrip).filter (fun l => !l.isEmpty)
                if cps.isEmpty then none
                else some (String.mk (joinSpaces cps)))
          | _, _ => conds
        else conds ++ [String.mk extra]) []
      [(String.mk m, String.mk p, String.mk t, conds)]
  | _ => []

/-- The `for char in text` loop of `_parse_evolutions` (populate_database.py
lines 704-748): gather each top-level brace-delimited group (braces
included) and process it into an EntryTuple as soon as its closing brace
brings the depth back to zero. -/
def evoAux : Int → List Char → List (String × String × String × List String) →
    List Char → List (String × String × String × List String)
  | _, _, acc, [] => acc
  | depth, cur, acc, c :: cs =>
      let cur1 := if c == '{' && depth == 0 then ([] : List Char) else cur
      let depth1 := if c == '{' then depth + 1 else depth
      let cur2 := if (0 : Int) < depth1 then cur1 ++ [c] else cur1
      let depth2 := if c == '}' then depth1 - 1 else depth1
      if c == '}' && depth2 == 0 then
        evoAux depth2 cur2 (acc ++ processEvoEntry cur2) cs
      else
        evoAux depth2 cur2 acc cs

/-- `_parse_evolutions(value)` (populate_database.py lines 690-749): the
Entry-list decoder.  Empty input and the literal `EVOLUTION(NULL)` give no
entries; an `EVOLUTION` wrapper's parenthesized interior is extracted when
both parentheses are present; then the top-level brace groups are decoded
into EntryTuples. -/
def parse_evolutions (value : String) :
    List (String × String × String × List String) :=
  if value.data.isEmpty then []
  else
    let text0 := pystrip value.data
    if text0 == "EVOLUTION(NULL)".data then []
    else
      let text :=
        if text0.take 9 == "EVOLUTION".data then
          match text0.findIdx? (fun c => c == '('),
              text0.reverse.findIdx? (fun c => c == ')') with
          | some s, some ri => (text0.take (text0.length - 1 - ri)).drop (s + 1)
          | _, _ => text0
        else text0
      evoAux 0 [] [] text

set_option maxRecDepth 8192

/-- C7: `_parse_evolutions` decodes each top-level brace group by taking
the first three top-level parts as method, parameter and target; a
remaining part beginning with the nested-list keyword CONDITIONS is
unwrapped (each of its nested brace groups split into parts and rejoined
with single spaces) into the conditions list, and any other trailing part
is appended verbatim; entry order and condition order are preserved, shown
on a two-entry evolution-style group whose second entry carries one
verbatim extra part followed by a nested two-group condition list. -/
theorem C7_decode_entry_list :
    parse_evolutions
        "EVOLUTION(\x7bEVO_LEVEL, 16, SPECIES_IVYSAUR\x7d, \x7bEVO_ITEM, ITEM_MOON_STONE, SPECIES_NIDOQUEEN, EVO_EXTRA, CONDITIONS(\x7bIF_GENDER, MON_FEMALE\x7d, \x7bIF_MIN_FRIENDSHIP, 160\x7d)\x7d)" =
      [("EVO_LEVEL", "16", "SPECIES_IVYSAUR", []),
       ("EVO_ITEM", "ITEM_MOON_STONE", "SPECIES_NIDOQUEEN",
        ["EVO_EXTRA", "IF_GENDER MON_FEMALE", "IF_MIN_FRIENDSHIP 160"])] := by
  decide
